import Mathlib

/-!
Verification of the core of the social-media dashboard (src/app.py):
the synthetic dataset generator `generate_mock_data` (lines 32-75) and the
metric enricher `enrich_data` (lines 78-89).

Modelling choices (shallow embedding):
* Machine numbers are embedded as ℤ and ℚ.  The Python `int(x)` conversion
  truncates toward zero; it is embedded as `truncQ`.  The pandas `.round(k)`
  method rounds to `k` decimal places with ties to even (the numpy rounding
  mode); it is embedded exactly over ℚ as `roundTo`.
* The numpy PRNG seeded with 42 is a fixed deterministic source of draws.
  It is embedded as an abstract per-record draw bundle `RecordDraws`
  (one function `ℕ → RecordDraws` from record index to its draws), with the
  predicate `DrawsValid` recording the half-open ranges each continuous
  draw is taken from (`np.random.uniform(lo, hi)` samples `[lo, hi)`),
  and `Fin`-typed indices for the categorical draws
  (`np.random.choice` / `np.random.randint`).  A fixed seed fixes the
  draw function; it does NOT fix `datetime.now()`, which is a separate
  parameter `now` (measured in whole days, the granularity the claims use).
* `datetime.now() - timedelta(days=k)` is embedded as `now - k : ℤ`.
* DataFrames are embedded as lists of records; the columnwise arithmetic
  of the enricher is rowwise independent, hence a `List.map`.
-/

/-- Python `int(q)` for a real-valued `q`: truncation toward zero. -/
def truncQ (q : ℚ) : ℤ :=
  if 0 ≤ q then ⌊q⌋ else ⌈q⌉

/-- Round a rational to the nearest integer, ties to even
(the numpy/pandas rounding mode). -/
def roundHalfEven (q : ℚ) : ℤ :=
  let f : ℤ := ⌊q⌋
  let r : ℚ := q - (f : ℚ)
  if r < 1/2 then f
  else if 1/2 < r then f + 1
  else if f % 2 = 0 then f else f + 1

/-- pandas `.round(d)`: round to `d` decimal places, ties to even. -/
def roundTo (d : ℕ) (q : ℚ) : ℚ :=
  (roundHalfEven (q * (10 : ℚ) ^ d) : ℚ) / (10 : ℚ) ^ d

/-- Placeholder default for `List.getD` on the fixed vocabularies;
never reached because every index is `Fin`-bounded by the list length. -/
def emptyS : String := ""

/-- One row of the generated DataFrame (src/app.py lines 58-73),
fields in source order.  `date` is in whole days. -/
structure PostRecord where
  post_id : String
  platform : String
  date : ℤ
  hook_type : String
  creative_type : String
  visual_style : String
  post_time : String
  reach : ℤ
  likes : ℤ
  shares : ℤ
  saves : ℤ
  comments : ℤ
  followers : ℤ
  quality_score : ℚ
deriving DecidableEq

/-- src/app.py line 37. -/
def platforms : List String := ["Instagram", "TikTok", "LinkedIn"]

/-- src/app.py line 38. -/
def hooks : List String :=
  ["Question", "Controversy", "Story", "Tutorial", "Trend", "Before/After",
   "Data Insight"]

/-- src/app.py line 39. -/
def creatives : List String :=
  ["Carousel", "Video", "Reel", "Text Post", "Infographic", "Story"]

/-- src/app.py lines 40-41. -/
def visuals : List String :=
  ["Bold Text", "Face to Camera", "Minimal", "Dynamic B-Roll",
   "Trending Audio", "Comparison", "Clean Graphics", "POV Style"]

/-- src/app.py line 42. -/
def times : List String :=
  ["07:00", "08:00", "09:00", "11:00", "14:00", "16:00", "18:00", "20:00"]

/-- src/app.py line 47: the per-platform baseline-followers dictionary. -/
def base_followers (platform : String) : ℤ :=
  if platform = "Instagram" then 28000
  else if platform = "TikTok" then 35000
  else if platform = "LinkedIn" then 12000
  else 0

/-- The random draws consumed while producing one record
(src/app.py lines 46-65), in source order.  Categorical draws are indices
into the fixed vocabularies; continuous draws are the sampled rationals.
`daysAgo` is `np.random.randint(0, 30)`, a value in `0..29`. -/
structure RecordDraws where
  platformIdx : Fin 3
  reach_multiplier : ℚ
  likesFrac : ℚ
  sharesFrac : ℚ
  savesFrac : ℚ
  commentsFrac : ℚ
  quality_score : ℚ
  daysAgo : Fin 30
  hookIdx : Fin 7
  creativeIdx : Fin 6
  visualIdx : Fin 8
  timeIdx : Fin 8
deriving DecidableEq

/-- The ranges of the continuous draws: `np.random.uniform(lo, hi)` samples
the half-open interval `[lo, hi)` (src/app.py lines 48, 51-54, 56). -/
def DrawsValid (d : RecordDraws) : Prop :=
  1/2 ≤ d.reach_multiplier ∧ d.reach_multiplier < 8 ∧
  2/100 ≤ d.likesFrac ∧ d.likesFrac < 15/100 ∧
  5/1000 ≤ d.sharesFrac ∧ d.sharesFrac < 25/1000 ∧
  3/1000 ≤ d.savesFrac ∧ d.savesFrac < 4/100 ∧
  2/1000 ≤ d.commentsFrac ∧ d.commentsFrac < 15/1000 ∧
  6 ≤ d.quality_score ∧ d.quality_score < 19/2

/-- The body of the generation loop for index `i`
(src/app.py lines 46-73). -/
def mkRecord (dr : RecordDraws) (now : ℤ) (i : ℕ) : PostRecord :=
  let platform := platforms.getD dr.platformIdx.val emptyS
  let followers := base_followers platform
  let reach := truncQ ((followers : ℚ) * dr.reach_multiplier)
  { post_id := "POST_" ++ toString (i + 1)
    platform := platform
    date := now - (dr.daysAgo.val : ℤ)
    hook_type := hooks.getD dr.hookIdx.val emptyS
    creative_type := creatives.getD dr.creativeIdx.val emptyS
    visual_style := visuals.getD dr.visualIdx.val emptyS
    post_time := times.getD dr.timeIdx.val emptyS
    reach := reach
    likes := truncQ ((reach : ℚ) * dr.likesFrac)
    shares := truncQ ((reach : ℚ) * dr.sharesFrac)
    saves := truncQ ((reach : ℚ) * dr.savesFrac)
    comments := truncQ ((reach : ℚ) * dr.commentsFrac)
    followers := followers
    quality_score := dr.quality_score }

/-- `generate_mock_data` (src/app.py lines 32-75): 50 records.  `draws` is
the deterministic stream produced by `np.random.seed(42)`; `now` is the
wall-clock day at invocation time (`datetime.now()`), which the seed does
not fix. -/
def generate_mock_data (draws : ℕ → RecordDraws) (now : ℤ) : List PostRecord :=
  (List.range 50).map (fun i => mkRecord (draws i) now i)

/-- One row of the enriched DataFrame: the original record plus the eight
derived columns added by `enrich_data` (src/app.py lines 81-88). -/
structure EnrichedRecord where
  base : PostRecord
  total_engagement : ℤ
  engagement_rate : ℚ
  quality_engagement : ℚ
  reach_efficiency : ℚ
  viral_ratio : ℚ
  save_rate : ℚ
  share_rate : ℚ
  hour : ℕ
deriving DecidableEq

/-- The per-row computation of `enrich_data` (src/app.py lines 78-89).
`df['likes'].replace(0, 1)` is the `if likes = 0 then 1 else likes`
denominator, and `df['post_time'].str[:2].astype(int)` is
`(post_time.take 2).toNat?`.  Note there is no guard and no error path:
on a zero `reach` the source silently divides by zero (pandas produces
inf/NaN there; ℚ division by zero yields 0 in this embedding — either way
a value, never an exception). -/
def enrichRecord (r : PostRecord) : EnrichedRecord :=
  let total : ℤ := r.likes + r.shares + r.saves + r.comments
  { base := r
    total_engagement := total
    engagement_rate := roundTo 2 ((total : ℚ) / (r.reach : ℚ) * 100)
    quality_engagement :=
      roundTo 2 (((r.shares + r.saves : ℤ) : ℚ) /
        ((if r.likes = 0 then 1 else r.likes : ℤ) : ℚ) * 100)
    reach_efficiency := roundTo 2 ((r.reach : ℚ) / (r.followers : ℚ))
    viral_ratio :=
      roundTo 1 (((r.reach - r.followers : ℤ) : ℚ) / (r.followers : ℚ) * 100)
    save_rate := roundTo 3 ((r.saves : ℚ) / (r.reach : ℚ) * 100)
    share_rate := roundTo 3 ((r.shares : ℚ) / (r.reach : ℚ) * 100)
    hour := ((r.post_time.take 2).toNat?).getD 0 }

/-- `enrich_data` (src/app.py lines 78-89): `df.copy()` — a new collection,
the input is not mutated — followed by columnwise derivations, all rowwise
independent. -/
def enrich_data (rs : List PostRecord) : List EnrichedRecord :=
  rs.map enrichRecord

/-- A record with all fields as in the original except the date zeroed:
used to state which fields of the generator output depend on the clock. -/
def eraseDate (r : PostRecord) : PostRecord :=
  { r with date := 0 }

/-- A concrete draw bundle inside every sampled range (witness data). -/
def exDraw : RecordDraws :=
  { platformIdx := 0
    reach_multiplier := 1
    likesFrac := 1/10
    sharesFrac := 1/100
    savesFrac := 1/100
    commentsFrac := 1/100
    quality_score := 7
    daysAgo := 5
    hookIdx := 0
    creativeIdx := 0
    visualIdx := 0
    timeIdx := 0 }

/-- A concrete draw stream: every record uses `exDraw`. -/
def exampleDraws : ℕ → RecordDraws := fun _ => exDraw

/-- A concrete input record for the enricher with the raw counts as given
and the remaining fields fixed arbitrarily (they do not enter the metrics
under test). -/
def sampleRecord (reach likes shares saves comments followers : ℤ) : PostRecord :=
  { post_id := "POST_1", platform := "Instagram", date := 0,
    hook_type := "Question", creative_type := "Carousel",
    visual_style := "Minimal", post_time := "07:00",
    reach := reach, likes := likes, shares := shares, saves := saves,
    comments := comments, followers := followers, quality_score := 7 }

/-- An input record violating the reach-positivity precondition. -/
def zeroReachRecord : PostRecord := sampleRecord 0 100 20 30 10 28000

/-- Every element of the generated collection is `mkRecord` at some
index below 50. -/
lemma mem_generate {r : PostRecord} {draws : ℕ → RecordDraws} {now : ℤ} :
    r ∈ generate_mock_data draws now ↔
      ∃ i, i < 50 ∧ mkRecord (draws i) now i = r := by
  unfold generate_mock_data
  simp [List.mem_map, List.mem_range]

/-- Truncation toward zero of a non-negative rational is non-negative. -/
lemma truncQ_nonneg {q : ℚ} (h : 0 ≤ q) : 0 ≤ truncQ q := by
  unfold truncQ; rw [if_pos h]; exact Int.floor_nonneg.mpr h

/-- Truncation toward zero of a non-negative rational is a lower bound. -/
lemma truncQ_le {q : ℚ} (h : 0 ≤ q) : (truncQ q : ℚ) ≤ q := by
  unfold truncQ; rw [if_pos h]; exact Int.floor_le q

/-- Every platform in the vocabulary has baseline followers at least
12000 (the LinkedIn entry of the dictionary on src/app.py line 47). -/
lemma base_followers_lb (j : Fin 3) :
    12000 ≤ base_followers (platforms.getD j.val emptyS) := by
  fin_cases j <;> decide

/-- With draws inside their sampled ranges, every generated reach is at
least `12000 * 0.5 = 6000`. -/
lemma mkRecord_reach_lb (dr : RecordDraws) (now : ℤ) (i : ℕ)
    (h : DrawsValid dr) : 6000 ≤ (mkRecord dr now i).reach := by
  have hB := base_followers_lb dr.platformIdx
  unfold DrawsValid at h
  obtain ⟨hm, -⟩ := h
  have hreach : (mkRecord dr now i).reach =
      truncQ ((base_followers (platforms.getD dr.platformIdx.val emptyS) : ℚ) *
        dr.reach_multiplier) := rfl
  rw [hreach]
  have hBq : (12000 : ℚ) ≤
      (base_followers (platforms.getD dr.platformIdx.val emptyS) : ℚ) := by
    exact_mod_cast hB
  have h6 : (6000 : ℚ) ≤
      (base_followers (platforms.getD dr.platformIdx.val emptyS) : ℚ) *
        dr.reach_multiplier := by
    calc (6000 : ℚ) = 12000 * (1/2) := by norm_num
    _ ≤ _ := mul_le_mul hBq hm (by norm_num) (by linarith)
  unfold truncQ
  rw [if_pos (by linarith : (0:ℚ) ≤ _)]
  exact Int.le_floor.mpr (by push_cast; linarith)

/-- With the constant draw stream `exampleDraws`, every generated date is
the clock value minus 5 days. -/
lemma dates_replicate (now : ℤ) :
    (generate_mock_data exampleDraws now).map PostRecord.date =
      List.replicate 50 (now - 5) := by
  unfold generate_mock_data
  rw [List.map_map]
  have h : (PostRecord.date ∘ fun i => mkRecord (exampleDraws i) now i) =
      fun _ => now - 5 := by
    funext i; rfl
  rw [h]
  simp

/-- C1 counterexample: the claim that two invocations of the generator
with the same count and seed are byte-identical in every field including
date is false.  The seed fixes every random draw (here the concrete
stream `exampleDraws`), but `date` is `datetime.now()` minus the drawn
offset (src/app.py line 61): two invocations observing clock days 0 and 1
return different collections. -/
theorem generator_clock_dependent :
    generate_mock_data exampleDraws 0 ≠ generate_mock_data exampleDraws 1 := by
  intro h
  have h2 := congrArg (List.map PostRecord.date) h
  rw [dates_replicate, dates_replicate] at h2
  rw [show (50 : ℕ) = 49 + 1 from rfl, List.replicate_succ,
    List.replicate_succ] at h2
  injection h2 with h3 h4
  omega

/-- C1 (amended): two invocations of the generator with the same seed
(hence the same draw stream) agree field for field on every field except
`date` regardless of the clock, and are byte-identical — date included —
exactly when they observe the same clock instant. -/
theorem generator_determinism_modulo_clock (draws : ℕ → RecordDraws)
    (now₁ now₂ : ℤ) :
    (generate_mock_data draws now₁).map eraseDate =
      (generate_mock_data draws now₂).map eraseDate ∧
    (now₁ = now₂ →
      generate_mock_data draws now₁ = generate_mock_data draws now₂) := by
  constructor
  · unfold generate_mock_data
    rw [List.map_map, List.map_map]
    congr 1
  · rintro rfl; rfl

/-- C1 amended-claim witness at the concrete stream `exampleDraws` and
clock days 3 and 4 (and 3 and 3 for the second conjunct). -/
theorem generator_determinism_modulo_clock_witness :
    (generate_mock_data exampleDraws 3).map eraseDate =
      (generate_mock_data exampleDraws 4).map eraseDate ∧
    generate_mock_data exampleDraws 3 = generate_mock_data exampleDraws 3 :=
  ⟨(generator_determinism_modulo_clock exampleDraws 3 4).1,
   (generator_determinism_modulo_clock exampleDraws 3 3).2 rfl⟩

/-- C2 (evidence for the code bug): on a collection containing a record
with `reach = 0` the enricher does NOT raise a caller-contract error — it
returns an enriched row.  `enrich_data` is a total function with no error
path, faithfully to the source, which performs the three reach divisions
unguarded (pandas yields inf/NaN there; no exception is raised). -/
theorem enrich_zero_reach_no_error :
    enrich_data [zeroReachRecord] = [enrichRecord zeroReachRecord] ∧
    (enrich_data [zeroReachRecord]).length = 1 :=
  ⟨rfl, rfl⟩

/-- C3: the enricher formula and rounding contract.  For every record,
engagement_rate, quality_engagement and reach_efficiency are the stated
ratios rounded to 2 decimal places, viral_ratio to 1, save_rate and
share_rate to 3; and on the concrete record with reach=1000, likes=100,
shares=20, saves=30, comments=10 the outputs are total_engagement=160,
engagement_rate=16.00, quality_engagement=50.00, save_rate=3.000,
share_rate=2.000. -/
theorem enrich_formula_rounding_contract :
    (∀ r : PostRecord,
      (enrichRecord r).engagement_rate =
        roundTo 2 (((r.likes + r.shares + r.saves + r.comments : ℤ) : ℚ) /
          (r.reach : ℚ) * 100) ∧
      (enrichRecord r).quality_engagement =
        roundTo 2 (((r.shares + r.saves : ℤ) : ℚ) /
          ((if r.likes = 0 then 1 else r.likes : ℤ) : ℚ) * 100) ∧
      (enrichRecord r).reach_efficiency =
        roundTo 2 ((r.reach : ℚ) / (r.followers : ℚ)) ∧
      EnrichedRecord.viral_ratio (enrichRecord r) =
        roundTo 1 (((r.reach - r.followers : ℤ) : ℚ) / (r.followers : ℚ) * 100) ∧
      (enrichRecord r).save_rate =
        roundTo 3 ((r.saves : ℚ) / (r.reach : ℚ) * 100) ∧
      (enrichRecord r).share_rate =
        roundTo 3 ((r.shares : ℚ) / (r.reach : ℚ) * 100)) ∧
    (enrichRecord (sampleRecord 1000 100 20 30 10 10000)).total_engagement = 160 ∧
    (enrichRecord (sampleRecord 1000 100 20 30 10 10000)).engagement_rate = 16 ∧
    (enrichRecord (sampleRecord 1000 100 20 30 10 10000)).quality_engagement = 50 ∧
    (enrichRecord (sampleRecord 1000 100 20 30 10 10000)).save_rate = 3 ∧
    (enrichRecord (sampleRecord 1000 100 20 30 10 10000)).share_rate = 2 := by
  refine ⟨fun r => ⟨rfl, rfl, rfl, rfl, rfl, rfl⟩, rfl, ?_, ?_, ?_, ?_⟩ <;>
    norm_num [enrichRecord, sampleRecord, roundTo, roundHalfEven]

/-- C4: the zero-likes substitution rule.  For every record with
non-negative likes, quality_engagement is (shares + saves) divided by
`max likes 1` times 100 (rounded to 2 places as the enricher always does):
the `replace(0, 1)` denominator substitutes 1 exactly when likes is 0.
On the concrete record likes=0, shares=5, saves=5 the result is 1000.00,
not a division-by-zero error. -/
theorem quality_engagement_substitution :
    (∀ r : PostRecord, 0 ≤ r.likes →
      (enrichRecord r).quality_engagement =
        roundTo 2 (((r.shares + r.saves : ℤ) : ℚ) /
          ((max r.likes 1 : ℤ) : ℚ) * 100)) ∧
    (enrichRecord (sampleRecord 1000 0 5 5 0 10000)).quality_engagement = 1000 := by
  constructor
  · intro r hr
    have hden : (if r.likes = 0 then 1 else r.likes : ℤ) = max r.likes 1 := by
      rcases eq_or_ne r.likes 0 with h | h
      · simp [h]
      · rw [if_neg h]; omega
    have e : (enrichRecord r).quality_engagement =
        roundTo 2 (((r.shares + r.saves : ℤ) : ℚ) /
          ((if r.likes = 0 then 1 else r.likes : ℤ) : ℚ) * 100) := rfl
    rw [e, hden]
  · norm_num [enrichRecord, sampleRecord, roundTo, roundHalfEven]

/-- C4 witness: the universally quantified part applied to the concrete
record with likes=100, shares=20, saves=30, discharging the non-negativity
hypothesis there. -/
theorem quality_engagement_substitution_witness :
    (enrichRecord (sampleRecord 1000 100 20 30 10 10000)).quality_engagement =
      roundTo 2 (((20 + 30 : ℤ) : ℚ) / ((max (100:ℤ) 1 : ℤ) : ℚ) * 100) :=
  quality_engagement_substitution.1 (sampleRecord 1000 100 20 30 10 10000)
    (by norm_num [sampleRecord])

/-- C5: every record produced by the generator (with draws inside their
sampled ranges) has positive reach, positive followers, and non-negative
likes, shares, saves and comments. -/
theorem generated_record_invariant (draws : ℕ → RecordDraws) (now : ℤ)
    (hv : ∀ i, DrawsValid (draws i)) :
    ∀ r ∈ generate_mock_data draws now,
      0 < r.reach ∧ 0 < r.followers ∧
      0 ≤ r.likes ∧ 0 ≤ r.shares ∧ 0 ≤ r.saves ∧ 0 ≤ r.comments := by
  intro r hr
  obtain ⟨i, hi, rfl⟩ := mem_generate.mp hr
  have h := hv i
  have hreach := mkRecord_reach_lb (draws i) now i h
  have hreach0 : (0:ℚ) ≤ ((mkRecord (draws i) now i).reach : ℚ) := by
    have h0 : (0:ℤ) ≤ (mkRecord (draws i) now i).reach := by omega
    exact_mod_cast h0
  unfold DrawsValid at h
  obtain ⟨h1, h2, h3, h4, h5, h6, h7, h8, h9, h10, h11, h12⟩ := h
  have hf : (mkRecord (draws i) now i).followers =
      base_followers (platforms.getD (draws i).platformIdx.val emptyS) := rfl
  have hB := base_followers_lb (draws i).platformIdx
  refine ⟨by omega, by omega, ?_, ?_, ?_, ?_⟩
  · have e : (mkRecord (draws i) now i).likes =
        truncQ (((mkRecord (draws i) now i).reach : ℚ) * (draws i).likesFrac) := rfl
    rw [e]
    exact truncQ_nonneg (mul_nonneg hreach0 (by linarith))
  · have e : (mkRecord (draws i) now i).shares =
        truncQ (((mkRecord (draws i) now i).reach : ℚ) * (draws i).sharesFrac) := rfl
    rw [e]
    exact truncQ_nonneg (mul_nonneg hreach0 (by linarith))
  · have e : (mkRecord (draws i) now i).saves =
        truncQ (((mkRecord (draws i) now i).reach : ℚ) * (draws i).savesFrac) := rfl
    rw [e]
    exact truncQ_nonneg (mul_nonneg hreach0 (by linarith))
  · have e : (mkRecord (draws i) now i).comments =
        truncQ (((mkRecord (draws i) now i).reach : ℚ) * (draws i).commentsFrac) := rfl
    rw [e]
    exact truncQ_nonneg (mul_nonneg hreach0 (by linarith))

/-- C5 witness: the invariant evaluated at the first record of the
collection generated from the concrete draw stream `exampleDraws`. -/
theorem generated_record_invariant_witness :
    0 < (mkRecord exDraw 0 0).reach ∧ 0 < (mkRecord exDraw 0 0).followers ∧
    0 ≤ (mkRecord exDraw 0 0).likes ∧ 0 ≤ (mkRecord exDraw 0 0).shares ∧
    0 ≤ (mkRecord exDraw 0 0).saves ∧ 0 ≤ (mkRecord exDraw 0 0).comments :=
  generated_record_invariant exampleDraws 0
    (fun _ => by norm_num [DrawsValid, exampleDraws, exDraw])
    (mkRecord exDraw 0 0)
    (List.mem_map.mpr ⟨0, by simp, rfl⟩)

/-- C6: the enricher frame property.  The output collection has the same
size and order as the input, and projecting every enriched record back to
its original fields recovers the input collection exactly (the source
works on `df.copy()`, so the input itself is a distinct, unmodified
collection; in this pure embedding the input is immutable by
construction). -/
theorem enrich_frame_property (rs : List PostRecord) :
    (enrich_data rs).length = rs.length ∧
    (enrich_data rs).map EnrichedRecord.base = rs := by
  constructor
  · exact List.length_map rs enrichRecord
  · unfold enrich_data
    rw [List.map_map]
    have h : EnrichedRecord.base ∘ enrichRecord = id := funext fun r => rfl
    rw [h, List.map_id]

/-- C7: the enricher is deterministic and pure: it consults no ambient
state (its embedding takes no clock or randomness parameter, faithfully to
src/app.py lines 78-89), so two applications to the same input collection
return identical outputs. -/
theorem enrich_deterministic (rs₁ rs₂ : List PostRecord) (h : rs₁ = rs₂) :
    enrich_data rs₁ = enrich_data rs₂ := by rw [h]

/-- C7 witness: two applications to the same concrete one-record
collection coincide. -/
theorem enrich_deterministic_witness :
    enrich_data [sampleRecord 1000 100 20 30 10 10000] =
      enrich_data [sampleRecord 1000 100 20 30 10 10000] :=
  enrich_deterministic _ _ rfl

/-- C8: the viral-ratio sign.  For every record the enricher emits
viral_ratio as the raw value (reach - followers) / followers * 100 rounded
to 1 decimal place, with no clamping of negative values; on the concrete
record followers=10000, reach=8000 the result is -20.0. -/
theorem viral_sign_not_clamped :
    (∀ r : PostRecord,
      EnrichedRecord.viral_ratio (enrichRecord r) =
        roundTo 1 (((r.reach - r.followers : ℤ) : ℚ) /
          (r.followers : ℚ) * 100)) ∧
    EnrichedRecord.viral_ratio (enrichRecord (sampleRecord 8000 0 0 0 0 10000)) =
      -20 := by
  refine ⟨fun r => rfl, ?_⟩
  norm_num [enrichRecord, sampleRecord, roundTo, roundHalfEven]

/-- C9: the date window.  Every generated record has date equal to the
generation-time clock value minus an integer number of days drawn below
the 30-day lookback horizon (`np.random.randint(0, 30)` samples 0..29),
hence between now minus 30 days and now. -/
theorem date_window (draws : ℕ → RecordDraws) (now : ℤ) :
    ∀ r ∈ generate_mock_data draws now,
      ∃ k : ℕ, k < 30 ∧ r.date = now - (k : ℤ) ∧
        now - 30 ≤ r.date ∧ r.date ≤ now := by
  intro r hr
  obtain ⟨i, hi, rfl⟩ := mem_generate.mp hr
  refine ⟨(draws i).daysAgo.val, (draws i).daysAgo.isLt, rfl, ?_, ?_⟩
  · have hk := (draws i).daysAgo.isLt
    have e : (mkRecord (draws i) now i).date =
        now - ((draws i).daysAgo.val : ℤ) := rfl
    rw [e]; omega
  · have e : (mkRecord (draws i) now i).date =
        now - ((draws i).daysAgo.val : ℤ) := rfl
    rw [e]; omega

/-- C9 witness: the date window evaluated at the first record of the
collection generated from `exampleDraws` at clock day 0. -/
theorem date_window_witness :
    ∃ k : ℕ, k < 30 ∧ (mkRecord exDraw 0 0).date = 0 - (k : ℤ) ∧
      (0:ℤ) - 30 ≤ (mkRecord exDraw 0 0).date ∧ (mkRecord exDraw 0 0).date ≤ 0 :=
  date_window exampleDraws 0 (mkRecord exDraw 0 0)
    (List.mem_map.mpr ⟨0, by simp, rfl⟩)

/-- C10: the implicit engagement-sum bound.  Each count is the truncation
of reach times a fraction drawn strictly below its range upper bound, and
the upper bounds 0.15 + 0.025 + 0.04 + 0.015 = 0.23 sum below 1, so
likes + shares + saves + comments is strictly less than reach for every
generated record. -/
theorem engagement_sum_lt_reach (draws : ℕ → RecordDraws) (now : ℤ)
    (hv : ∀ i, DrawsValid (draws i)) :
    ∀ r ∈ generate_mock_data draws now,
      r.likes + r.shares + r.saves + r.comments < r.reach := by
  intro r hr
  obtain ⟨i, hi, rfl⟩ := mem_generate.mp hr
  have h := hv i
  have hreach := mkRecord_reach_lb (draws i) now i h
  unfold DrawsValid at h
  obtain ⟨h1, h2, h3, h4, h5, h6, h7, h8, h9, h10, h11, h12⟩ := h
  have hR0 : (0:ℚ) < ((mkRecord (draws i) now i).reach : ℚ) := by
    have h0 : (0:ℤ) < (mkRecord (draws i) now i).reach := by omega
    exact_mod_cast h0
  have hlikes : ((mkRecord (draws i) now i).likes : ℚ) ≤
      ((mkRecord (draws i) now i).reach : ℚ) * (draws i).likesFrac := by
    have e : (mkRecord (draws i) now i).likes =
        truncQ (((mkRecord (draws i) now i).reach : ℚ) * (draws i).likesFrac) := rfl
    rw [e]; exact truncQ_le (mul_nonneg hR0.le (by linarith))
  have hshares : ((mkRecord (draws i) now i).shares : ℚ) ≤
      ((mkRecord (draws i) now i).reach : ℚ) * (draws i).sharesFrac := by
    have e : (mkRecord (draws i) now i).shares =
        truncQ (((mkRecord (draws i) now i).reach : ℚ) * (draws i).sharesFrac) := rfl
    rw [e]; exact truncQ_le (mul_nonneg hR0.le (by linarith))
  have hsaves : ((mkRecord (draws i) now i).saves : ℚ) ≤
      ((mkRecord (draws i) now i).reach : ℚ) * (draws i).savesFrac := by
    have e : (mkRecord (draws i) now i).saves =
        truncQ (((mkRecord (draws i) now i).reach : ℚ) * (draws i).savesFrac) := rfl
    rw [e]; exact truncQ_le (mul_nonneg hR0.le (by linarith))
  have hcomments : ((mkRecord (draws i) now i).comments : ℚ) ≤
      ((mkRecord (draws i) now i).reach : ℚ) * (draws i).commentsFrac := by
    have e : (mkRecord (draws i) now i).comments =
        truncQ (((mkRecord (draws i) now i).reach : ℚ) * (draws i).commentsFrac) := rfl
    rw [e]; exact truncQ_le (mul_nonneg hR0.le (by linarith))
  have p1 := mul_lt_mul_of_pos_left h4 hR0
  have p2 := mul_lt_mul_of_pos_left h6 hR0
  have p3 := mul_lt_mul_of_pos_left h8 hR0
  have p4 := mul_lt_mul_of_pos_left h10 hR0
  have goalQ : (((mkRecord (draws i) now i).likes +
      (mkRecord (draws i) now i).shares + (mkRecord (draws i) now i).saves +
      (mkRecord (draws i) now i).comments : ℤ) : ℚ) <
      ((mkRecord (draws i) now i).reach : ℚ) := by
    push_cast
    linarith
  exact_mod_cast goalQ

/-- C10 witness: the strict bound evaluated at the first record of the
collection generated from `exampleDraws` at clock day 0. -/
theorem engagement_sum_lt_reach_witness :
    (mkRecord exDraw 0 0).likes + (mkRecord exDraw 0 0).shares +
      (mkRecord exDraw 0 0).saves + (mkRecord exDraw 0 0).comments <
      (mkRecord exDraw 0 0).reach :=
  engagement_sum_lt_reach exampleDraws 0
    (fun _ => by norm_num [DrawsValid, exampleDraws, exDraw])
    (mkRecord exDraw 0 0)
    (List.mem_map.mpr ⟨0, by simp, rfl⟩)
